import Mathlib

/-!
# BC texture emulation layer: registry and decompression dispatcher

Shallow embedding of `src/src/bc_impl.cpp` (the record map `s_recs` and the
functions that read and write it) and of the two hooks of `src/layer_core.cpp`
that drive it (`hooked_vkCreateImage`, `hooked_vkQueueSubmit`).

Modelling conventions
* Vulkan handles (`VkDevice`, `VkImage`, `VkQueue`, ...) and pointers are natural
  numbers; `VK_NULL_HANDLE` is `0`.
* `VkFormat` / `VkResult` values are integers (C enums).
* `std::unordered_map<uint64_t, Rec>` is a function from keys to optional
  records: `find` is application, `s_recs[k] = r` is `Function.update`.
* Every function takes the map as an argument and returns the new map together
  with its C return value and the lines it writes through `LOGI`.
-/

set_option linter.unusedVariables false

namespace BcEmulate

/-! ## Constants of `<vulkan/vulkan.h>` used by the sources -/

/-- Enumerator value of `VK_FORMAT_R8G8B8A8_UNORM` in the Vulkan headers. -/
def VK_FORMAT_R8G8B8A8_UNORM : Int := 37

/-- Enumerator value of `VK_FORMAT_BC1_RGB_UNORM_BLOCK` in the Vulkan headers. -/
def VK_FORMAT_BC1_RGB_UNORM_BLOCK : Int := 131

/-- Enumerator value of `VK_FORMAT_BC5_UNORM_BLOCK` in the Vulkan headers. -/
def VK_FORMAT_BC5_UNORM_BLOCK : Int := 141

/-- Enumerator value of `VK_FORMAT_BC5_SNORM_BLOCK` in the Vulkan headers. -/
def VK_FORMAT_BC5_SNORM_BLOCK : Int := 142

/-- Enumerator value of `VK_FORMAT_BC6H_UFLOAT_BLOCK` in the Vulkan headers. -/
def VK_FORMAT_BC6H_UFLOAT_BLOCK : Int := 143

/-- Enumerator value of `VK_FORMAT_BC7_SRGB_BLOCK` in the Vulkan headers. -/
def VK_FORMAT_BC7_SRGB_BLOCK : Int := 146

/-- Value of `VK_SUCCESS`. -/
def VK_SUCCESS : Int := 0

/-- Value of `VK_ERROR_INITIALIZATION_FAILED`. -/
def VK_ERROR_INITIALIZATION_FAILED : Int := -3

/-- The null handle `VK_NULL_HANDLE`. -/
def VK_NULL_HANDLE : Nat := 0

/-! ## Data model (`bc_impl.cpp`, lines 16-18) -/

/-- Record type `struct Rec` of `bc_impl.cpp`. -/
structure Rec where
  device : Nat
  image : Nat
  format : Int
  w : Nat
  h : Nat
  decompressed : Bool
  deriving DecidableEq, Repr

/-- The map `s_recs`: key to optional record. -/
abbrev Registry := Nat → Option Rec

/-- The registry right after program start or `bc_shutdown`: no record. -/
def emptyRegistry : Registry := fun _ => none

/-- Map key of an image handle: `(uint64_t)(uintptr_t)image`. -/
def keyOf (image : Nat) : Nat := image % 2 ^ 64

/-- Lines written through `LOGI` by the modelled functions. -/
inductive LogMsg where
  /-- Line "Registered image %p fmt %d %ux%u" of `bc_register_compressed_image`. -/
  | registeredImage (image : Nat) (format : Int) (width height : Nat)
  /-- Line "Scheduling GPU decompression for format %d", written in the first
  worker branch of `bc_force_decompress` (line 43). -/
  | schedulingGpu (format : Int)
  /-- Line "Scheduling BC6H/BC7 GPU compute shader; if unavailable fallback to
  CPU decoders with staged upload.", written in the else branch (line 49). -/
  | schedulingBC6H7
  /-- Line "Registered compressed image for lazy-emulation" of
  `hooked_vkCreateImage` in `layer_core.cpp`. -/
  | registeredLazy
  deriving DecidableEq, Repr

/-- What a call of one of the `bc_*` functions produces: its `int` return value,
the map afterwards and the log lines it wrote. -/
structure Outcome where
  ret : Int
  recs : Registry
  log : List LogMsg

/-! ## Operations of `bc_impl.cpp` -/

/-- Function `bc_register_compressed_image` (lines 25-32): unconditional
`s_recs[k] = r` with `decompressed = false`, then `return 0`. -/
def bc_register_compressed_image (s : Registry) (device image : Nat) (format : Int)
    (width height : Nat) : Outcome :=
  let k := keyOf image
  let r : Rec := ⟨device, image, format, width, height, false⟩
  { ret := 0
    recs := Function.update s k (some r)
    log := [LogMsg.registeredImage image format width height] }

/-- Function `bc_force_decompress` (lines 34-54). -/
def bc_force_decompress (s : Registry) (device image : Nat) : Outcome :=
  let k := keyOf image
  match s k with
  | none => { ret := -1, recs := s, log := [] }
  | some r =>
    if r.decompressed then { ret := 0, recs := s, log := [] }
    else if VK_FORMAT_BC1_RGB_UNORM_BLOCK ≤ r.format ∧ r.format ≤ VK_FORMAT_BC5_UNORM_BLOCK then
      { ret := 0
        recs := Function.update s k (some { r with decompressed := true })
        log := [LogMsg.schedulingGpu r.format] }
    else
      { ret := 0
        recs := Function.update s k (some { r with decompressed := true })
        log := [LogMsg.schedulingBC6H7] }

/-- Function `bc_schedule_decompress_on_first_use` (lines 56-59). -/
def bc_schedule_decompress_on_first_use (s : Registry) (device image : Nat) : Outcome :=
  bc_force_decompress s device image

/-- Whether a call went into the first worker branch (line 42, GPU compute for
the simple block formats), read off the line it logs. -/
def tookSimpleBlockBranch (o : Outcome) : Bool :=
  o.log.any fun m => match m with
    | LogMsg.schedulingGpu _ => true
    | _ => false

/-- Whether a call went into the else worker branch (line 48, BC6H/BC7 with CPU
fallback), read off the line it logs. -/
def tookHighQualityBranch (o : Outcome) : Bool :=
  o.log.any fun m => match m with
    | LogMsg.schedulingBC6H7 => true
    | _ => false

/-- Whether a call entered either worker branch. -/
def enteredWorker (o : Outcome) : Bool :=
  tookSimpleBlockBranch o || tookHighQualityBranch o

/-! ## Sequences of calls -/

/-- One call of the public interface of `bc_emulate.h` that touches the map. -/
inductive Op where
  | register (device image : Nat) (format : Int) (width height : Nat)
  | force (device image : Nat)
  | schedule (device image : Nat)
  deriving DecidableEq, Repr

/-- Outcome of one call. -/
def Op.run (s : Registry) : Op → Outcome
  | Op.register d i f w h => bc_register_compressed_image s d i f w h
  | Op.force d i => bc_force_decompress s d i
  | Op.schedule d i => bc_schedule_decompress_on_first_use s d i

/-- Registry after a sequence of calls, executed left to right. -/
def runOps (s : Registry) : List Op → Registry
  | [] => s
  | op :: rest => runOps (op.run s).recs rest

/-- Whether a call is a registration that writes key `k`. -/
def Op.registersKey (k : Nat) : Op → Bool
  | Op.register _ i _ _ _ => decide (keyOf i = k)
  | _ => false

/-- One settle call for an image, through
`bc_schedule_decompress_on_first_use` (`true`) or `bc_force_decompress`
(`false`). -/
def settleCall (viaSchedule : Bool) (s : Registry) (device image : Nat) : Outcome :=
  if viaSchedule then bc_schedule_decompress_on_first_use s device image
  else bc_force_decompress s device image

/-! ## Hooks of `layer_core.cpp` -/

/-- Struct `VkExtent3D` of the Vulkan headers. -/
structure VkExtent3D where
  width : Nat
  height : Nat
  depth : Nat
  deriving DecidableEq, Repr

/-- Struct `VkImageCreateInfo` of the Vulkan headers, field by field. -/
structure VkImageCreateInfo where
  sType : Int
  pNext : Nat
  flags : Nat
  imageType : Int
  format : Int
  extent : VkExtent3D
  mipLevels : Nat
  arrayLayers : Nat
  samples : Int
  tiling : Int
  usage : Nat
  sharingMode : Int
  queueFamilyIndexCount : Nat
  pQueueFamilyIndices : Nat
  initialLayout : Int
  deriving DecidableEq, Repr

/-- The driver entry point `vkCreateImage` behind the layer: from the device, the
create-info pointer (`none` is a null pointer), the allocator pointer and the
old content of `*pImage` to the `VkResult` and the content of `*pImage`
afterwards. -/
abbrev PFN_vkCreateImage := Nat → Option VkImageCreateInfo → Nat → Nat → Int × Nat

/-- What `hooked_vkCreateImage` produces: its `VkResult`, the content of
`*pImage`, the map `s_recs`, the log lines, and the create-info it handed to the
real entry point (`none` when the real entry point was not called). -/
structure CreateOutcome where
  result : Int
  image : Nat
  recs : Registry
  log : List LogMsg
  forwarded : Option (Option VkImageCreateInfo)

/-- Function `hooked_vkCreateImage` (layer_core.cpp, lines 48-65). The argument
`real` is the static function pointer after the lookup of line 50 (`none` when
it is still null). -/
def hooked_vkCreateImage (real : Option PFN_vkCreateImage) (s : Registry) (device : Nat)
    (pCreateInfo : Option VkImageCreateInfo) (pAlloc image0 : Nat) : CreateOutcome :=
  match real with
  | none =>
    { result := VK_ERROR_INITIALIZATION_FAILED, image := image0, recs := s, log := [],
      forwarded := none }
  | some real =>
    match pCreateInfo with
    | some ci =>
      if VK_FORMAT_BC1_RGB_UNORM_BLOCK ≤ ci.format ∧ ci.format ≤ VK_FORMAT_BC7_SRGB_BLOCK then
        let newInfo : VkImageCreateInfo := { ci with format := VK_FORMAT_R8G8B8A8_UNORM }
        let r := real device (some newInfo) pAlloc image0
        if r.1 = VK_SUCCESS then
          let o := bc_register_compressed_image s device r.2 ci.format ci.extent.width
            ci.extent.height
          { result := r.1, image := r.2, recs := o.recs,
            log := o.log ++ [LogMsg.registeredLazy], forwarded := some (some newInfo) }
        else
          { result := r.1, image := r.2, recs := s, log := [],
            forwarded := some (some newInfo) }
      else
        let r := real device (some ci) pAlloc image0
        { result := r.1, image := r.2, recs := s, log := [], forwarded := some (some ci) }
    | none =>
      let r := real device none pAlloc image0
      { result := r.1, image := r.2, recs := s, log := [], forwarded := some none }

/-- The driver entry point `vkQueueSubmit` behind the layer. -/
abbrev PFN_vkQueueSubmit := Nat → Nat → Nat → Nat → Int

/-- What `hooked_vkQueueSubmit` produces: the `VkResult` of the forwarded
submission, and the map and log lines left by the settle call made before it. -/
structure SubmitOutcome where
  result : Int
  recs : Registry
  log : List LogMsg

/-- Function `hooked_vkQueueSubmit` (layer_core.cpp, lines 69-79): one call
`bc_schedule_decompress_on_first_use(VK_NULL_HANDLE, VK_NULL_HANDLE)` whose
result is dropped, then the submission is forwarded to `real`. -/
def hooked_vkQueueSubmit (real : PFN_vkQueueSubmit) (s : Registry)
    (queue submitCount pSubmits fence : Nat) : SubmitOutcome :=
  let o := bc_schedule_decompress_on_first_use s VK_NULL_HANDLE VK_NULL_HANDLE
  { result := real queue submitCount pSubmits fence, recs := o.recs, log := o.log }

/-- A create-info for a 16x8 2D image declared as `VK_FORMAT_BC7_UNORM_BLOCK`
(145), used to run the hook on a concrete input. -/
def bc7CreateInfo : VkImageCreateInfo :=
  { sType := 14, pNext := 0, flags := 0, imageType := 1, format := 145,
    extent := { width := 16, height := 8, depth := 1 }, mipLevels := 1, arrayLayers := 1,
    samples := 1, tiling := 0, usage := 6, sharingMode := 0, queueFamilyIndexCount := 0,
    pQueueFamilyIndices := 0, initialLayout := 0 }

/-- A driver `vkCreateImage` that always succeeds and returns the handle 77. -/
def realCreateImageOk : PFN_vkCreateImage := fun _ _ _ _ => (VK_SUCCESS, 77)

/-! ## Helper lemmas -/

theorem force_of_absent (s : Registry) (device image : Nat)
    (h : s (keyOf image) = none) :
    bc_force_decompress s device image = { ret := -1, recs := s, log := [] } := by
  simp [bc_force_decompress, h]

theorem force_of_decompressed (s : Registry) (device image : Nat) (r : Rec)
    (h : s (keyOf image) = some r) (hd : r.decompressed = true) :
    bc_force_decompress s device image = { ret := 0, recs := s, log := [] } := by
  simp [bc_force_decompress, h, hd]

theorem force_of_registered (s : Registry) (device image : Nat) (r : Rec)
    (h : s (keyOf image) = some r) (hd : r.decompressed = false) :
    (bc_force_decompress s device image).ret = 0 ∧
    (bc_force_decompress s device image).recs =
      Function.update s (keyOf image) (some { r with decompressed := true }) ∧
    (bc_force_decompress s device image).log =
      (if VK_FORMAT_BC1_RGB_UNORM_BLOCK ≤ r.format ∧ r.format ≤ VK_FORMAT_BC5_UNORM_BLOCK
        then [LogMsg.schedulingGpu r.format] else [LogMsg.schedulingBC6H7]) := by
  by_cases hf : VK_FORMAT_BC1_RGB_UNORM_BLOCK ≤ r.format ∧ r.format ≤ VK_FORMAT_BC5_UNORM_BLOCK
  · simp [bc_force_decompress, h, hd, hf]
  · simp [bc_force_decompress, h, hd, hf]

theorem force_recs_eq_update (s : Registry) (device image : Nat) (r : Rec)
    (h : s (keyOf image) = some r) :
    (bc_force_decompress s device image).ret = 0 ∧
    (bc_force_decompress s device image).recs =
      Function.update s (keyOf image) (some { r with decompressed := true }) := by
  cases hd : r.decompressed
  · exact ⟨(force_of_registered s device image r h hd).1,
      (force_of_registered s device image r h hd).2.1⟩
  · rw [force_of_decompressed s device image r h hd]
    refine ⟨rfl, ?_⟩
    have hr : ({ r with decompressed := true } : Rec) = r := by
      cases r; simp_all
    simp only [hr]
    rw [← h, Function.update_eq_self]

theorem force_ret_zero_lookup (s : Registry) (device image : Nat)
    (h : (bc_force_decompress s device image).ret = 0) :
    ∃ r, s (keyOf image) = some r := by
  cases hs : s (keyOf image) with
  | none => rw [force_of_absent s device image hs] at h; simp at h
  | some r => exact ⟨r, rfl⟩

theorem settleCall_of_decompressed (viaSchedule : Bool) (s : Registry) (device image : Nat)
    (r : Rec) (h : s (keyOf image) = some r) (hd : r.decompressed = true) :
    settleCall viaSchedule s device image = { ret := 0, recs := s, log := [] } := by
  cases viaSchedule <;>
    simp [settleCall, bc_schedule_decompress_on_first_use,
      force_of_decompressed s device image r h hd]

theorem force_decompress_frame_aux (s : Registry) (device image : Nat) :
    ∀ k, k ≠ keyOf image → (bc_force_decompress s device image).recs k = s k := by
  intro k hk
  cases hs : s (keyOf image) with
  | none => rw [force_of_absent s device image hs]
  | some r =>
    rw [(force_recs_eq_update s device image r hs).2, Function.update_noteq hk]

theorem runOps_append (s : Registry) (pre post : List Op) :
    runOps s (pre ++ post) = runOps (runOps s pre) post := by
  induction pre generalizing s with
  | nil => rfl
  | cons op rest ih =>
    show runOps (op.run s).recs (rest ++ post) = runOps (runOps (op.run s).recs rest) post
    exact ih _

theorem op_run_keeps_decompressed (s : Registry) (op : Op) (k : Nat) (r : Rec)
    (h : s k = some r) (hd : r.decompressed = true) (hop : op.registersKey k = false) :
    (op.run s).recs k = some r := by
  have hforce : ∀ d i, (bc_force_decompress s d i).recs k = some r := by
    intro d i
    by_cases hk : k = keyOf i
    · subst hk
      rw [force_of_decompressed s d i r h hd]
      exact h
    · rw [(force_decompress_frame_aux s d i) k hk]
      exact h
  cases op with
  | register d i f w hh =>
    have hk : k ≠ keyOf i := by
      intro hk
      simp [Op.registersKey, hk] at hop
    simp only [Op.run, bc_register_compressed_image]
    rw [Function.update_noteq hk]
    exact h
  | force d i => exact hforce d i
  | schedule d i => exact hforce d i

theorem runOps_keeps_decompressed (s : Registry) (ops : List Op) (k : Nat) (r : Rec)
    (h : s k = some r) (hd : r.decompressed = true)
    (hops : ∀ op ∈ ops, op.registersKey k = false) :
    runOps s ops k = some r := by
  induction ops generalizing s with
  | nil => exact h
  | cons op rest ih =>
    simp only [runOps]
    apply ih
    · exact op_run_keeps_decompressed s op k r h hd (hops op (List.mem_cons_self op rest))
    · intro op2 h2
      exact hops op2 (List.mem_cons_of_mem op h2)

/-! ## Claims about the registry and the dispatcher -/

/-- C1. After `bc_register_compressed_image(device, image, format, width, height)`
the call has returned 0 and looking up the key of `image` finds the record with
exactly the device, image, format, width and height passed in and
`decompressed = false`, whatever the registry was before. -/
theorem register_then_lookup (s : Registry) (device image : Nat) (format : Int)
    (width height : Nat) :
    (bc_register_compressed_image s device image format width height).ret = 0 ∧
    (bc_register_compressed_image s device image format width height).recs (keyOf image) =
      some { device := device, image := image, format := format, w := width, h := height,
             decompressed := false } := by
  simp [bc_register_compressed_image]

/-- C3. For an image whose key has no record, `bc_force_decompress` and
`bc_schedule_decompress_on_first_use` return -1, write no log line and leave the
registry exactly as it was. -/
theorem force_unknown_image (s : Registry) (device image : Nat)
    (h : s (keyOf image) = none) :
    (bc_force_decompress s device image).ret = -1 ∧
    (bc_force_decompress s device image).recs = s ∧
    (bc_force_decompress s device image).log = [] ∧
    (bc_schedule_decompress_on_first_use s device image).ret = -1 ∧
    (bc_schedule_decompress_on_first_use s device image).recs = s := by
  simp [bc_schedule_decompress_on_first_use, force_of_absent s device image h]

/-- Witness for C3: image 5 in a registry that only holds image 9. -/
theorem force_unknown_image_witness :
    (bc_register_compressed_image emptyRegistry 1 9 131 4 4).recs (keyOf 5) = none ∧
    ((bc_force_decompress (bc_register_compressed_image emptyRegistry 1 9 131 4 4).recs 2 5).ret
        = -1 ∧
      (bc_force_decompress (bc_register_compressed_image emptyRegistry 1 9 131 4 4).recs 2 5).recs
        = (bc_register_compressed_image emptyRegistry 1 9 131 4 4).recs ∧
      (bc_force_decompress (bc_register_compressed_image emptyRegistry 1 9 131 4 4).recs 2 5).log
        = [] ∧
      (bc_schedule_decompress_on_first_use
        (bc_register_compressed_image emptyRegistry 1 9 131 4 4).recs 2 5).ret = -1 ∧
      (bc_schedule_decompress_on_first_use
        (bc_register_compressed_image emptyRegistry 1 9 131 4 4).recs 2 5).recs
        = (bc_register_compressed_image emptyRegistry 1 9 131 4 4).recs) :=
  ⟨by decide, force_unknown_image _ 2 5 (by decide)⟩

/-- C4, as stated, fails: image 5 is registered and `bc_force_decompress` returns
0 for it; after image 5 is registered again, the next `bc_force_decompress` for
image 5 returns 0 but enters a worker branch again and changes the registry. -/
theorem reregistration_redispatches :
    (bc_force_decompress (runOps emptyRegistry [Op.register 1 5 131 4 4]) 1 5).ret = 0 ∧
    (bc_force_decompress
      (runOps (bc_force_decompress (runOps emptyRegistry [Op.register 1 5 131 4 4]) 1 5).recs
        [Op.register 1 5 131 4 4]) 1 5).ret = 0 ∧
    enteredWorker (bc_force_decompress
      (runOps (bc_force_decompress (runOps emptyRegistry [Op.register 1 5 131 4 4]) 1 5).recs
        [Op.register 1 5 131 4 4]) 1 5) = true ∧
    (bc_force_decompress
      (runOps (bc_force_decompress (runOps emptyRegistry [Op.register 1 5 131 4 4]) 1 5).recs
        [Op.register 1 5 131 4 4]) 1 5).recs (keyOf 5) ≠
      runOps (bc_force_decompress (runOps emptyRegistry [Op.register 1 5 131 4 4]) 1 5).recs
        [Op.register 1 5 131 4 4] (keyOf 5) := by
  decide

/-- C4, amended. Once `bc_force_decompress` has returned 0 for an image, every
later call of `bc_force_decompress` or `bc_schedule_decompress_on_first_use` for
that image (with any device argument, after any sequence of further calls of
the three operations) returns 0, enters no worker branch, writes no log line
and leaves the whole registry as it found it, as long as none of the calls in
between is a `bc_register_compressed_image` for that image's key. -/
theorem force_decompress_idempotent (s : Registry) (device image : Nat)
    (h : (bc_force_decompress s device image).ret = 0) (later : List Op)
    (hlater : ∀ op ∈ later, op.registersKey (keyOf image) = false)
    (viaSchedule : Bool) (d : Nat) :
    (settleCall viaSchedule
      (runOps (bc_force_decompress s device image).recs later) d image).ret = 0 ∧
    enteredWorker (settleCall viaSchedule
      (runOps (bc_force_decompress s device image).recs later) d image) = false ∧
    (settleCall viaSchedule
      (runOps (bc_force_decompress s device image).recs later) d image).log = [] ∧
    (settleCall viaSchedule
      (runOps (bc_force_decompress s device image).recs later) d image).recs =
      runOps (bc_force_decompress s device image).recs later := by
  obtain ⟨r, hr⟩ := force_ret_zero_lookup s device image h
  have hrecs := (force_recs_eq_update s device image r hr).2
  have hk : (bc_force_decompress s device image).recs (keyOf image) =
      some { r with decompressed := true } := by
    rw [hrecs, Function.update_same]
  have hlate := runOps_keeps_decompressed _ later (keyOf image) _ hk rfl hlater
  rw [settleCall_of_decompressed viaSchedule _ d image _ hlate rfl]
  exact ⟨rfl, rfl, rfl, rfl⟩

/-- Witness for the amended C4: image 5 registered with format 131 and forced
once; then it is settled again, image 6 is registered and forced, and a final
settle call for image 5 goes through `bc_schedule_decompress_on_first_use`. -/
theorem force_decompress_idempotent_witness :
    ((bc_force_decompress (bc_register_compressed_image emptyRegistry 1 5 131 4 4).recs 1 5).ret
        = 0 ∧
      ∀ op ∈ [Op.force 0 5, Op.register 2 6 145 8 8, Op.force 2 6, Op.schedule 9 5],
        op.registersKey (keyOf 5) = false) ∧
    ((settleCall true
      (runOps
        (bc_force_decompress (bc_register_compressed_image emptyRegistry 1 5 131 4 4).recs 1 5).recs
        [Op.force 0 5, Op.register 2 6 145 8 8, Op.force 2 6, Op.schedule 9 5]) 7 5).ret = 0 ∧
     enteredWorker (settleCall true
      (runOps
        (bc_force_decompress (bc_register_compressed_image emptyRegistry 1 5 131 4 4).recs 1 5).recs
        [Op.force 0 5, Op.register 2 6 145 8 8, Op.force 2 6, Op.schedule 9 5]) 7 5) = false ∧
     (settleCall true
      (runOps
        (bc_force_decompress (bc_register_compressed_image emptyRegistry 1 5 131 4 4).recs 1 5).recs
        [Op.force 0 5, Op.register 2 6 145 8 8, Op.force 2 6, Op.schedule 9 5]) 7 5).log = [] ∧
     (settleCall true
      (runOps
        (bc_force_decompress (bc_register_compressed_image emptyRegistry 1 5 131 4 4).recs 1 5).recs
        [Op.force 0 5, Op.register 2 6 145 8 8, Op.force 2 6, Op.schedule 9 5]) 7 5).recs =
      runOps
        (bc_force_decompress (bc_register_compressed_image emptyRegistry 1 5 131 4 4).recs 1 5).recs
        [Op.force 0 5, Op.register 2 6 145 8 8, Op.force 2 6, Op.schedule 9 5]) :=
  ⟨⟨by decide, by decide⟩,
    force_decompress_idempotent _ 1 5 (by decide)
      [Op.force 0 5, Op.register 2 6 145 8 8, Op.force 2 6, Op.schedule 9 5]
      (by decide) true 7⟩

/-- C10. Result and frame of `bc_force_decompress`: it returns 0 or -1, and -1
exactly when the key has no record; when it returns 0 the record of that key is
the old one with `decompressed = true` (device, image, format, width and height
kept), every other key maps to what it mapped to before, and a key has a record
afterwards exactly when it had one before. -/
theorem force_decompress_frame (s : Registry) (device image : Nat) :
    ((bc_force_decompress s device image).ret = 0 ∨
      (bc_force_decompress s device image).ret = -1) ∧
    ((bc_force_decompress s device image).ret = -1 ↔ s (keyOf image) = none) ∧
    ((bc_force_decompress s device image).ret = 0 →
      ∃ r, s (keyOf image) = some r ∧
        (bc_force_decompress s device image).recs (keyOf image) =
          some { device := r.device, image := r.image, format := r.format, w := r.w, h := r.h,
                 decompressed := true }) ∧
    (∀ k, k ≠ keyOf image → (bc_force_decompress s device image).recs k = s k) ∧
    (∀ k, ((bc_force_decompress s device image).recs k).isSome = (s k).isSome) := by
  cases hs : s (keyOf image) with
  | none =>
    rw [force_of_absent s device image hs]
    simp
  | some r =>
    obtain ⟨h0, hrecs⟩ := force_recs_eq_update s device image r hs
    rw [hrecs, h0]
    refine ⟨Or.inl rfl, by simp, ?_, ?_, ?_⟩
    · intro _
      exact ⟨r, rfl, by rw [Function.update_same]⟩
    · intro k hk
      rw [Function.update_noteq hk]
    · intro k
      by_cases hk : k = keyOf image
      · subst hk; rw [Function.update_same, hs]; rfl
      · rw [Function.update_noteq hk]

/-- Witness for C10: image 5 registered with format 145 next to image 9. -/
theorem force_decompress_frame_witness :
    (bc_force_decompress
      (bc_register_compressed_image
        (bc_register_compressed_image emptyRegistry 1 9 131 4 4).recs 1 5 145 8 2).recs 3 5).ret = 0 ∧
    (bc_force_decompress
      (bc_register_compressed_image
        (bc_register_compressed_image emptyRegistry 1 9 131 4 4).recs 1 5 145 8 2).recs 3 5).recs
        (keyOf 5) = some { device := 1, image := 5, format := 145, w := 8, h := 2,
                           decompressed := true } ∧
    (bc_force_decompress
      (bc_register_compressed_image
        (bc_register_compressed_image emptyRegistry 1 9 131 4 4).recs 1 5 145 8 2).recs 3 5).recs 9
        = some { device := 1, image := 9, format := 131, w := 4, h := 4, decompressed := false } := by
  have h := force_decompress_frame
    (bc_register_compressed_image
      (bc_register_compressed_image emptyRegistry 1 9 131 4 4).recs 1 5 145 8 2).recs 3 5
  refine ⟨by decide, by decide, ?_⟩
  rw [h.2.2.2.1 9 (by decide)]
  decide

/-- C2, as stated, fails: image 5 is registered with device 1, format 131 and
extent 4x4 and then again with device 2, format 145 and extent 8x8; the second
call returns 0 and the record found afterwards is not the first one. -/
theorem register_twice_overwrites :
    (bc_register_compressed_image
      (bc_register_compressed_image emptyRegistry 1 5 131 4 4).recs 2 5 145 8 8).ret = 0 ∧
    (bc_register_compressed_image emptyRegistry 1 5 131 4 4).recs (keyOf 5) =
      some { device := 1, image := 5, format := 131, w := 4, h := 4, decompressed := false } ∧
    (bc_register_compressed_image
      (bc_register_compressed_image emptyRegistry 1 5 131 4 4).recs 2 5 145 8 8).recs (keyOf 5) =
      some { device := 2, image := 5, format := 145, w := 8, h := 8, decompressed := false } ∧
    (bc_register_compressed_image
      (bc_register_compressed_image emptyRegistry 1 5 131 4 4).recs 2 5 145 8 8).recs (keyOf 5) ≠
      (bc_register_compressed_image emptyRegistry 1 5 131 4 4).recs (keyOf 5) := by
  decide

/-- C2, amended. A second `bc_register_compressed_image` for an image that was
registered before (with any calls in between, so also after the first record was
decompressed) returns 0 and replaces the record of that key by one with the
second call's device, format and extent and `decompressed = false`; the records
of all other keys are left as they were. -/
theorem register_twice_replaces (s : Registry) (d1 image : Nat) (f1 : Int) (w1 h1 : Nat)
    (mid : List Op) (d2 : Nat) (f2 : Int) (w2 h2 : Nat) :
    (bc_register_compressed_image
      (runOps (bc_register_compressed_image s d1 image f1 w1 h1).recs mid)
      d2 image f2 w2 h2).ret = 0 ∧
    (bc_register_compressed_image
      (runOps (bc_register_compressed_image s d1 image f1 w1 h1).recs mid)
      d2 image f2 w2 h2).recs (keyOf image) =
      some { device := d2, image := image, format := f2, w := w2, h := h2,
             decompressed := false } ∧
    ∀ k, k ≠ keyOf image →
      (bc_register_compressed_image
        (runOps (bc_register_compressed_image s d1 image f1 w1 h1).recs mid)
        d2 image f2 w2 h2).recs k =
      runOps (bc_register_compressed_image s d1 image f1 w1 h1).recs mid k := by
  refine ⟨rfl, ?_, ?_⟩
  · simp [bc_register_compressed_image]
  · intro k hk
    simp only [bc_register_compressed_image]
    rw [Function.update_noteq hk]

/-- C6, as stated, fails: from the empty registry, image 5 is registered and
forced, so its record is decompressed; registering image 5 again puts the record
of the same key back to `decompressed = false`. -/
theorem reregistration_regresses_state :
    runOps emptyRegistry [Op.register 1 5 131 4 4, Op.force 1 5] (keyOf 5) =
      some { device := 1, image := 5, format := 131, w := 4, h := 4, decompressed := true } ∧
    runOps emptyRegistry [Op.register 1 5 131 4 4, Op.force 1 5, Op.register 1 5 131 4 4]
      (keyOf 5) =
      some { device := 1, image := 5, format := 131, w := 4, h := 4, decompressed := false } := by
  decide

/-- C6, amended. Over every sequence of `bc_register_compressed_image`,
`bc_force_decompress` and `bc_schedule_decompress_on_first_use` calls from the
empty registry: once the record of a key is decompressed, it stays the same
decompressed record through all later calls, as long as none of them is a
`bc_register_compressed_image` for that key. -/
theorem decompressed_stable_until_reregistered (pre post : List Op) (k : Nat) (r : Rec)
    (h : runOps emptyRegistry pre k = some r) (hd : r.decompressed = true)
    (hpost : ∀ op ∈ post, op.registersKey k = false) :
    runOps emptyRegistry (pre ++ post) k = some r := by
  rw [runOps_append]
  exact runOps_keeps_decompressed _ post k r h hd hpost

/-- Witness for the amended C6: image 5 registered and forced, then settled again
while another image is registered and forced. -/
theorem decompressed_stable_until_reregistered_witness :
    (runOps emptyRegistry [Op.register 1 5 131 4 4, Op.force 1 5] 5 =
      some { device := 1, image := 5, format := 131, w := 4, h := 4, decompressed := true } ∧
     ({ device := 1, image := 5, format := 131, w := 4, h := 4, decompressed := true } :
        Rec).decompressed = true ∧
     ∀ op ∈ [Op.schedule 0 5, Op.register 2 6 145 8 8, Op.force 2 6, Op.force 9 5],
        op.registersKey 5 = false) ∧
    runOps emptyRegistry
      ([Op.register 1 5 131 4 4, Op.force 1 5] ++
        [Op.schedule 0 5, Op.register 2 6 145 8 8, Op.force 2 6, Op.force 9 5]) 5 =
      some { device := 1, image := 5, format := 131, w := 4, h := 4, decompressed := true } :=
  ⟨⟨by decide, rfl, by decide⟩,
    decompressed_stable_until_reregistered [Op.register 1 5 131 4 4, Op.force 1 5]
      [Op.schedule 0 5, Op.register 2 6 145 8 8, Op.force 2 6, Op.force 9 5] 5
      { device := 1, image := 5, format := 131, w := 4, h := 4, decompressed := true }
      (by decide) rfl (by decide)⟩

/-- Branch selection of `bc_force_decompress` as written: for a record that is
not yet decompressed the first worker branch is taken exactly for formats 131
to 141, the else branch for every other format; either way the call returns 0
and the record is decompressed afterwards. -/
theorem force_decompress_branch_selection (s : Registry) (device image : Nat) (r : Rec)
    (h : s (keyOf image) = some r) (hd : r.decompressed = false) :
    (tookSimpleBlockBranch (bc_force_decompress s device image) = true ↔
      (131 ≤ r.format ∧ r.format ≤ 141)) ∧
    (tookHighQualityBranch (bc_force_decompress s device image) = true ↔
      ¬ (131 ≤ r.format ∧ r.format ≤ 141)) ∧
    (bc_force_decompress s device image).ret = 0 ∧
    (bc_force_decompress s device image).recs (keyOf image) =
      some { r with decompressed := true } := by
  obtain ⟨h0, hrecs, hlog⟩ := force_of_registered s device image r h hd
  refine ⟨?_, ?_, h0, by rw [hrecs, Function.update_same]⟩
  · by_cases hf : 131 ≤ r.format ∧ r.format ≤ 141
    · simp [tookSimpleBlockBranch, hlog, VK_FORMAT_BC1_RGB_UNORM_BLOCK,
        VK_FORMAT_BC5_UNORM_BLOCK, hf]
    · simp [tookSimpleBlockBranch, hlog, VK_FORMAT_BC1_RGB_UNORM_BLOCK,
        VK_FORMAT_BC5_UNORM_BLOCK, hf]
  · by_cases hf : 131 ≤ r.format ∧ r.format ≤ 141
    · simp [tookHighQualityBranch, hlog, VK_FORMAT_BC1_RGB_UNORM_BLOCK,
        VK_FORMAT_BC5_UNORM_BLOCK, hf]
    · simp [tookHighQualityBranch, hlog, VK_FORMAT_BC1_RGB_UNORM_BLOCK,
        VK_FORMAT_BC5_UNORM_BLOCK, hf]

/-- C7 at the failing input: image 1 registered with
`VK_FORMAT_BC5_SNORM_BLOCK` (142) and extent 256x256. `bc_force_decompress`
returns 0 and decompresses the record, but through the else (BC6H/BC7) branch,
not through the BC1-BC5 branch. -/
theorem bc5_snorm_takes_else_branch :
    tookSimpleBlockBranch
      (bc_force_decompress
        (bc_register_compressed_image emptyRegistry 1 1 VK_FORMAT_BC5_SNORM_BLOCK 256 256).recs
        1 1) = false ∧
    tookHighQualityBranch
      (bc_force_decompress
        (bc_register_compressed_image emptyRegistry 1 1 VK_FORMAT_BC5_SNORM_BLOCK 256 256).recs
        1 1) = true ∧
    (bc_force_decompress
      (bc_register_compressed_image emptyRegistry 1 1 VK_FORMAT_BC5_SNORM_BLOCK 256 256).recs
      1 1).ret = 0 ∧
    (bc_force_decompress
      (bc_register_compressed_image emptyRegistry 1 1 VK_FORMAT_BC5_SNORM_BLOCK 256 256).recs
      1 1).recs (keyOf 1) =
      some { device := 1, image := 1, format := 142, w := 256, h := 256, decompressed := true } := by
  decide

/-! ## Claims about the hooks -/

/-- The settle call of `hooked_vkQueueSubmit` can only touch the record of key 0
(the null handle): every other key maps to what it mapped to before. -/
theorem queueSubmit_touches_only_null_key (real : PFN_vkQueueSubmit) (s : Registry)
    (queue submitCount pSubmits fence k : Nat) (hk : k ≠ 0) :
    (hooked_vkQueueSubmit real s queue submitCount pSubmits fence).recs k = s k := by
  simp only [hooked_vkQueueSubmit, bc_schedule_decompress_on_first_use]
  exact force_decompress_frame_aux s VK_NULL_HANDLE VK_NULL_HANDLE k hk

/-- C5 at the failing input: the registry holds image 5, registered and not yet
decompressed. After `hooked_vkQueueSubmit` the record of image 5 is still not
decompressed and no worker branch was logged. -/
theorem queueSubmit_leaves_registered_record :
    (bc_register_compressed_image emptyRegistry 1 5 131 4 4).recs (keyOf 5) =
      some { device := 1, image := 5, format := 131, w := 4, h := 4, decompressed := false } ∧
    (hooked_vkQueueSubmit (fun _ _ _ _ => VK_SUCCESS)
      (bc_register_compressed_image emptyRegistry 1 5 131 4 4).recs 3 1 0 0).recs (keyOf 5) =
      some { device := 1, image := 5, format := 131, w := 4, h := 4, decompressed := false } ∧
    (hooked_vkQueueSubmit (fun _ _ _ _ => VK_SUCCESS)
      (bc_register_compressed_image emptyRegistry 1 5 131 4 4).recs 3 1 0 0).log = [] := by
  decide

/-- C9. With the real entry point resolved and a create-info given:
for a format from `VK_FORMAT_BC1_RGB_UNORM_BLOCK` to `VK_FORMAT_BC7_SRGB_BLOCK`
the real entry point receives the application's create-info with only `format`
replaced by `VK_FORMAT_R8G8B8A8_UNORM`, its result and image are returned, on
`VK_SUCCESS` the registry holds under the key of the returned image the record
(device, image, declared format, extent width, extent height, not
decompressed), and on any other result the registry is unchanged; for a format
outside that range the create-info is forwarded as it is and the registry is
unchanged. -/
theorem createImage_substitution (real : PFN_vkCreateImage) (s : Registry) (device : Nat)
    (ci : VkImageCreateInfo) (pAlloc image0 : Nat) :
    ((VK_FORMAT_BC1_RGB_UNORM_BLOCK ≤ ci.format ∧ ci.format ≤ VK_FORMAT_BC7_SRGB_BLOCK) →
      (hooked_vkCreateImage (some real) s device (some ci) pAlloc image0).forwarded =
        some (some { ci with format := VK_FORMAT_R8G8B8A8_UNORM }) ∧
      ((hooked_vkCreateImage (some real) s device (some ci) pAlloc image0).result,
        (hooked_vkCreateImage (some real) s device (some ci) pAlloc image0).image) =
        real device (some { ci with format := VK_FORMAT_R8G8B8A8_UNORM }) pAlloc image0 ∧
      ((hooked_vkCreateImage (some real) s device (some ci) pAlloc image0).result = VK_SUCCESS →
        (hooked_vkCreateImage (some real) s device (some ci) pAlloc image0).recs
          (keyOf (hooked_vkCreateImage (some real) s device (some ci) pAlloc image0).image) =
          some { device := device,
                 image := (hooked_vkCreateImage (some real) s device (some ci) pAlloc image0).image,
                 format := ci.format, w := ci.extent.width, h := ci.extent.height,
                 decompressed := false } ∧
        ∀ k, k ≠ keyOf (hooked_vkCreateImage (some real) s device (some ci) pAlloc image0).image →
          (hooked_vkCreateImage (some real) s device (some ci) pAlloc image0).recs k = s k) ∧
      ((hooked_vkCreateImage (some real) s device (some ci) pAlloc image0).result ≠ VK_SUCCESS →
        (hooked_vkCreateImage (some real) s device (some ci) pAlloc image0).recs = s)) ∧
    (¬ (VK_FORMAT_BC1_RGB_UNORM_BLOCK ≤ ci.format ∧ ci.format ≤ VK_FORMAT_BC7_SRGB_BLOCK) →
      (hooked_vkCreateImage (some real) s device (some ci) pAlloc image0).forwarded =
        some (some ci) ∧
      ((hooked_vkCreateImage (some real) s device (some ci) pAlloc image0).result,
        (hooked_vkCreateImage (some real) s device (some ci) pAlloc image0).image) =
        real device (some ci) pAlloc image0 ∧
      (hooked_vkCreateImage (some real) s device (some ci) pAlloc image0).recs = s) := by
  constructor
  · intro hf
    by_cases hr : (real device (some { ci with format := VK_FORMAT_R8G8B8A8_UNORM })
        pAlloc image0).1 = VK_SUCCESS
    · have hdef : hooked_vkCreateImage (some real) s device (some ci) pAlloc image0 =
          { result := (real device (some { ci with format := VK_FORMAT_R8G8B8A8_UNORM })
              pAlloc image0).1,
            image := (real device (some { ci with format := VK_FORMAT_R8G8B8A8_UNORM })
              pAlloc image0).2,
            recs := (bc_register_compressed_image s device
              (real device (some { ci with format := VK_FORMAT_R8G8B8A8_UNORM })
                pAlloc image0).2 ci.format ci.extent.width ci.extent.height).recs,
            log := (bc_register_compressed_image s device
              (real device (some { ci with format := VK_FORMAT_R8G8B8A8_UNORM })
                pAlloc image0).2 ci.format ci.extent.width ci.extent.height).log ++
              [LogMsg.registeredLazy],
            forwarded := some (some { ci with format := VK_FORMAT_R8G8B8A8_UNORM }) } := by
        simp only [hooked_vkCreateImage]
        rw [if_pos hf, if_pos hr]
      rw [hdef]
      refine ⟨rfl, rfl, ?_, ?_⟩
      · intro _
        refine ⟨by simp [bc_register_compressed_image], ?_⟩
        intro k hk
        simp only [bc_register_compressed_image]
        rw [Function.update_noteq hk]
      · intro hne
        exact absurd hr hne
    · have hdef : hooked_vkCreateImage (some real) s device (some ci) pAlloc image0 =
          { result := (real device (some { ci with format := VK_FORMAT_R8G8B8A8_UNORM })
              pAlloc image0).1,
            image := (real device (some { ci with format := VK_FORMAT_R8G8B8A8_UNORM })
              pAlloc image0).2,
            recs := s, log := [],
            forwarded := some (some { ci with format := VK_FORMAT_R8G8B8A8_UNORM }) } := by
        simp only [hooked_vkCreateImage]
        rw [if_pos hf, if_neg hr]
      rw [hdef]
      refine ⟨rfl, rfl, ?_, ?_⟩
      · intro hs
        exact absurd hs hr
      · intro _
        rfl
  · intro hf
    simp [hooked_vkCreateImage, hf]

/-- Witness for C9: a BC7 create-info and a driver that succeeds with handle 77;
the driver receives format 37 and the registry then holds the record of image 77
with format 145 and extent 16x8, not decompressed. -/
theorem createImage_substitution_witness :
    (VK_FORMAT_BC1_RGB_UNORM_BLOCK ≤ bc7CreateInfo.format ∧
      bc7CreateInfo.format ≤ VK_FORMAT_BC7_SRGB_BLOCK) ∧
    (hooked_vkCreateImage (some realCreateImageOk) emptyRegistry 1 (some bc7CreateInfo)
      0 0).forwarded = some (some { bc7CreateInfo with format := 37 }) ∧
    (hooked_vkCreateImage (some realCreateImageOk) emptyRegistry 1 (some bc7CreateInfo)
      0 0).recs (keyOf 77) =
      some { device := 1, image := 77, format := 145, w := 16, h := 8, decompressed := false } :=
  ⟨by decide,
    ((createImage_substitution realCreateImageOk emptyRegistry 1 bc7CreateInfo 0 0).1
      (by decide)).1,
    (((createImage_substitution realCreateImageOk emptyRegistry 1 bc7CreateInfo 0 0).1
      (by decide)).2.2.1 (by decide)).1⟩

end BcEmulate
